import Mathlib

/-!
Shallow embedding of the TLC mobile component library's base wrapper
(`ReactBaseTLCWrapper` in `projects/tlc-base/base/utils/config-utils.ts`),
its label specialization (`tlc-label.component.tsx`) and the button
configuration factory (`createButtonConfig` in `config-utils.ts`).

JavaScript records become Lean structures; optional (`?:`) fields become
`Option`; the mutable wrapper instance becomes an explicit `WrapperState`
threaded through the methods; invocations of caller-supplied hooks are
recorded in an event trace.  Definitions come first, theorems follow.
-/

namespace TLC

/-- A style override record (`stl` in the source): the two dynamic
sub-fields `opacity` and `display`, plus the remaining style entries kept
abstractly as an association list of key/value pairs (the wrapper never
inspects them, it only copies them). -/
structure Style where
  opacity : Option Rat
  display : Option String
  other : List (String × String)
deriving DecidableEq

/-- `ngIf?: boolean | (() => boolean)` — either a boolean or a
zero-argument predicate. -/
inductive NgIf where
  | bool (b : Bool)
  | pred (f : Unit → Bool)

/-- The configuration record handed to the base wrapper: the fields of
`BaseComponentConfig` together with the label-specific `text` field and
`setState` callback of `TLCLabelConfig`.  The `init`, `destroy` and
`setState` entries are side-effecting callbacks supplied by the caller;
only their presence matters to the wrapper's control flow, and the calls
themselves are recorded in the event trace of each operation. -/
structure Config where
  id : String
  disabled : Option Bool
  visible : Option Bool
  ngIf : Option NgIf
  hasInit : Bool
  hasDestroy : Bool
  stl : Option Style
  disabledOpacity : Option Rat
  disabledTextColor : Option String
  text : String
  hasSetState : Bool

/-- JavaScript truthiness of an optional boolean field (`undefined` is
falsy), as in `if (cfg.disabled)`. -/
def boolTruthy : Option Bool → Bool
  | some b => b
  | none => false

/-- JavaScript truthiness of an optional string field (`undefined` and the
empty string are falsy), as in `if (cfg.disabledTextColor)`. -/
def strTruthy : Option String → Bool
  | some s => decide (s ≠ "")
  | none => false

/-- Strict comparison `x === false` on an optional boolean field, as in
`cfg.visible === false`. -/
def isSomeFalse : Option Bool → Bool
  | some false => true
  | _ => false

/-- `ReactBaseTLCWrapper.shouldHideComponent`: hide when
`visible === false`, or `ngIf === false`, or `ngIf` is a function whose
call returns false. -/
def shouldHideComponent (cfg : Config) : Bool :=
  if isSomeFalse cfg.visible then true
  else match cfg.ngIf with
    | some (NgIf.bool b) => if b = false then true else false
    | some (NgIf.pred f) => if f () = false then true else false
    | none => false

/-- The result of `computeDynamicStyle`: the three style properties the
method may set. -/
structure DynStyle where
  opacity : Option Rat
  color : Option String
  display : Option String
deriving DecidableEq

/-- First block of `computeDynamicStyle`: disabled-state styling
(`styles.opacity = cfg.disabledOpacity ?? 0.6`, optional
`disabledTextColor`). -/
def dynDisabledPass (cfg : Config) (st : DynStyle) : DynStyle :=
  if boolTruthy cfg.disabled then
    let a := { st with opacity := some (cfg.disabledOpacity.getD (3 / 5)) }
    if strTruthy cfg.disabledTextColor then { a with color := cfg.disabledTextColor } else a
  else st

/-- Second block of `computeDynamicStyle`: `styles.display = "none"` when
`visible === false`. -/
def dynVisiblePass (cfg : Config) (st : DynStyle) : DynStyle :=
  if isSomeFalse cfg.visible then { st with display := some "none" } else st

/-- Third block of `computeDynamicStyle`: dynamic values from the `stl`
override record, gated on `!cfg.disabled` and `cfg.visible !== false`. -/
def dynStlPass (cfg : Config) (st : DynStyle) : DynStyle :=
  match cfg.stl with
  | none => st
  | some s =>
      let a :=
        if s.opacity.isSome && !boolTruthy cfg.disabled then
          { st with opacity := s.opacity }
        else st
      if s.display.isSome && !isSomeFalse cfg.visible then
        { a with display := s.display }
      else a

/-- `ReactBaseTLCWrapper.computeDynamicStyle`: the three blocks applied in
source order to an initially empty style object. -/
def computeDynamicStyle (cfg : Config) : DynStyle :=
  dynStlPass cfg (dynVisiblePass cfg (dynDisabledPass cfg ⟨none, none, none⟩))

/-- `ReactBaseTLCWrapper.computeStaticStyle`: the `stl` override record
with its `opacity` and `display` sub-fields destructured away; an empty
record when `stl` is absent. -/
def computeStaticStyle (cfg : Config) : List (String × String) :=
  match cfg.stl with
  | some s => s.other
  | none => []

/-- One observable hook invocation made by a wrapper method: a call of the
configuration's `init` or `destroy` callback, of the wrapper's
`tlcTextChanged` handler (with the event payload), or of the
configuration's `setState` callback (with the configuration it receives). -/
inductive Ev where
  | initCall
  | destroyCall
  | textChanged (text previousText : String)
  | setStateCall (cfg : Config)

/-- Discriminator: is this event a call of the `init` hook? -/
def Ev.isInit : Ev → Bool
  | Ev.initCall => true
  | _ => false

/-- Discriminator: is this event a call of the `destroy` hook? -/
def Ev.isDestroy : Ev → Bool
  | Ev.destroyCall => true
  | _ => false

/-- Discriminator: is this event a `textChanged` emission? -/
def Ev.isTextChanged : Ev → Bool
  | Ev.textChanged _ _ => true
  | _ => false

/-- The mutable instance state of `ReactBaseTLCWrapper`: `_config`,
`_staticId`, the `_staticStyle` cache (`none` while still unset),
`_initialized`, and the `_previousConfig` snapshot. -/
structure WrapperState where
  config : Config
  staticId : String
  staticStyleCache : Option (List (String × String))
  initialized : Bool
  previousConfig : Option Config

/-- The `onConfigChange` specialization hook, abstracted as the list of
hook invocations it performs for a given previous/current pair. -/
abbrev Hook := Config → Config → List Ev

/-- The base class `onConfigChange`: a no-op. -/
def baseOnConfigChange : Hook := fun _ _ => []

/-- `TLCLabelWrapper.onConfigChange`: when `previousConfig.text` differs
from `currentConfig.text`, call the `tlcTextChanged` handler (when one is
installed on the wrapper) with the new and previous text, then call
`currentConfig.setState` with the current configuration when present;
otherwise do nothing. -/
def labelOnConfigChange (hasTextChangedHandler : Bool) : Hook := fun p c =>
  if p.text ≠ c.text then
    (if hasTextChangedHandler then [Ev.textChanged c.text p.text] else [])
      ++ (if c.hasSetState then [Ev.setStateCall c] else [])
  else []

/-- `ReactBaseTLCWrapper.useLifecycle`: store the configuration, snapshot
it as `_previousConfig` (a value copy), fix `_staticId`, then fire `init`
and set `_initialized` when the configuration carries an `init` hook and
the flag is not yet set. -/
def useLifecycle (input : Config) (s : WrapperState) : WrapperState × List Ev :=
  let s1 := { s with config := input, previousConfig := some input, staticId := input.id }
  if input.hasInit && !s1.initialized then
    ({ s1 with initialized := true }, [Ev.initCall])
  else (s1, [])

/-- The constructor: `useLifecycle` applied to a fresh instance whose
`_initialized` flag is false and whose caches are unset. -/
def construct (input : Config) : WrapperState × List Ev :=
  useLifecycle input
    { config := input, staticId := input.id, staticStyleCache := none,
      initialized := false, previousConfig := none }

/-- `ReactBaseTLCWrapper.updateConfig`: read the old `_previousConfig`,
store the new configuration in `_config`, invoke `onConfigChange` with the
old snapshot and the new configuration when a snapshot exists, then
overwrite `_previousConfig` with a value copy of the new configuration. -/
def updateConfig (onConfigChange : Hook) (s : WrapperState) (c : Config) :
    WrapperState × List Ev :=
  match s.previousConfig with
  | some p => ({ s with config := c, previousConfig := some c }, onConfigChange p c)
  | none => ({ s with config := c, previousConfig := some c }, [])

/-- `ReactBaseTLCWrapper.cleanup`: when the current configuration carries a
`destroy` hook and `_initialized` is set, call the hook and clear the
flag; otherwise do nothing. -/
def cleanup (s : WrapperState) : WrapperState × List Ev :=
  if s.config.hasDestroy && s.initialized then
    ({ s with initialized := false }, [Ev.destroyCall])
  else (s, [])

/-- The `staticStyle` getter: compute `computeStaticStyle` and cache it on
first access (in the source, `if (!this._staticStyle)`; the computed value
is always an object and objects are truthy, so `none` models exactly the
not-yet-assigned field), return the cached value afterwards. -/
def staticStyle (s : WrapperState) : WrapperState × List (String × String) :=
  match s.staticStyleCache with
  | some v => (s, v)
  | none =>
      let v := computeStaticStyle s.config
      ({ s with staticStyleCache := some v }, v)

/-- One host-issued operation on a live wrapper instance. -/
inductive Op where
  | update (c : Config)
  | doCleanup

/-- Run a sequence of host operations, threading the instance state and
concatenating the hook-invocation traces. -/
def runOps (onConfigChange : Hook) (s : WrapperState) : List Op → WrapperState × List Ev
  | [] => (s, [])
  | Op.update c :: ops =>
      ((runOps onConfigChange (updateConfig onConfigChange s c).1 ops).1,
       (updateConfig onConfigChange s c).2
         ++ (runOps onConfigChange (updateConfig onConfigChange s c).1 ops).2)
  | Op.doCleanup :: ops =>
      ((runOps onConfigChange (cleanup s).1 ops).1,
       (cleanup s).2 ++ (runOps onConfigChange (cleanup s).1 ops).2)

/-- The configuration held by a wrapper after applying a sequence of
`updateConfig` calls on top of an initial configuration: the last update's
configuration, or the initial one when there was no update. -/
def lastConfig (c0 : Config) : List Config → Config
  | [] => c0
  | c :: cs => lastConfig c cs

/-- A specialization hook that never itself calls `init` or `destroy`
(true of the base no-op hook and of the label hook, which only emits
`textChanged`/`setState` calls). -/
def HookNoLifecycleEvents (h : Hook) : Prop :=
  ∀ p c, ((h p c).countP Ev.isInit = 0) ∧ ((h p c).countP Ev.isDestroy = 0)

/-- An `onConfigChange` hook that may throw: `Except.error` models a
JavaScript exception escaping the hook. -/
abbrev HookE := Config → Config → Except Unit (List Ev)

/-- `updateConfig` with a possibly-throwing `onConfigChange` hook.
`_config` is assigned before the hook runs, so it is updated even when the
hook throws; `_previousConfig` is assigned after the hook returns, so on a
throw it keeps its old value and the exception propagates to the caller. -/
def updateConfigE (onConfigChange : HookE) (s : WrapperState) (c : Config) :
    WrapperState × Except Unit (List Ev) :=
  match s.previousConfig with
  | none => ({ s with config := c, previousConfig := some c }, Except.ok [])
  | some p =>
      match onConfigChange p c with
      | Except.error e => ({ s with config := c }, Except.error e)
      | Except.ok evs => ({ s with config := c, previousConfig := some c }, Except.ok evs)

/-- `cleanup` with a possibly-throwing `destroy` hook: `_initialized` is
cleared after the hook returns, so a throw leaves the flag (and the rest
of the state) untouched and the exception propagates. -/
def cleanupE (destroyThrows : Bool) (s : WrapperState) : WrapperState × Except Unit (List Ev) :=
  if s.config.hasDestroy && s.initialized then
    if destroyThrows then (s, Except.error ())
    else ({ s with initialized := false }, Except.ok [Ev.destroyCall])
  else (s, Except.ok [])

/-- Construction with a possibly-throwing `init` hook, seen from the
caller of `new`: when the hook throws inside the constructor the exception
propagates and the expression produces no instance at all, so no wrapper
with partially-updated flags ever becomes reachable. -/
def constructE (initThrows : Bool) (input : Config) :
    Except Unit (WrapperState × List Ev) :=
  if input.hasInit then
    if initThrows then Except.error ()
    else Except.ok
      ({ config := input, staticId := input.id, staticStyleCache := none,
         initialized := true, previousConfig := some input }, [Ev.initCall])
  else Except.ok
    ({ config := input, staticId := input.id, staticStyleCache := none,
       initialized := false, previousConfig := some input }, [])

/-- Object references, for the aliasing-sensitive reading of
`updateConfig`: JavaScript objects live in a store indexed by references. -/
abbrev Ref := Nat

/-- A store of configuration records. -/
abbrev Store := Ref → Config

/-- Mutate the record at reference `r` (external mutation of a caller's
configuration object, or allocation of a fresh object). -/
def Store.write (σ : Store) (r : Ref) (c : Config) : Store :=
  fun x => if x = r then c else σ x

/-- The reference-level view of a wrapper: `_config` and `_previousConfig`
hold references; `nextRef` bounds the allocated references, so every
caller-visible object has a reference below it. -/
structure WrapperRefs where
  configRef : Ref
  prevRef : Ref
  nextRef : Ref

/-- `updateConfig` at the reference level: `_config` aliases the caller's
object `r`; `onConfigChange` receives the old snapshot's contents and the
new configuration's contents (read before any overwrite); then
`{ ...this._config }` allocates a fresh object holding a copy of `r`'s
current contents and `_previousConfig` is pointed at it.  Returns the new
store, the new wrapper references, and the pair of hook arguments. -/
def updateConfigRef (σ : Store) (w : WrapperRefs) (r : Ref) :
    Store × WrapperRefs × (Config × Config) :=
  (Store.write σ w.nextRef (σ r),
   { configRef := r, prevRef := w.nextRef, nextRef := w.nextRef + 1 },
   (σ w.prevRef, σ r))

/-- The `attr` sub-record: a string-keyed association record; attribute
values are kept abstractly as strings. -/
abbrev Attr := List (String × String)

/-- JavaScript object spread `{ ...base, ...ov }` on `attr` records: keys
of `ov` win, keys only in `base` survive. -/
def spreadAttr (base ov : Attr) : Attr :=
  base.filter (fun kv => (ov.lookup kv.1).isNone) ++ ov

/-- `TLCButtonConfig`: the factory-relevant projection of the button
configuration interface (remaining optional fields such as `leftIcon`,
`status`, `longPress`, `stl`, `ngIf` and the lifecycle hooks behave
exactly like `size`/`icon` under the top-level shallow merge). -/
structure TLCButtonConfig where
  id : String
  visible : Option Bool
  disabled : Option Bool
  color : Option String
  type : String
  size : Option String
  icon : Option String
  loading : Option Bool
  label : String
  attr : Option Attr
deriving DecidableEq

/-- `Partial<TLCButtonConfig>`: every field optional; `none` means the
override object has no own property for the field, so the spread leaves
the default in place. -/
structure TLCButtonConfigPartial where
  id : Option String
  visible : Option Bool
  disabled : Option Bool
  color : Option String
  type : Option String
  size : Option String
  icon : Option String
  loading : Option Bool
  label : Option String
  attr : Option Attr
deriving DecidableEq

/-- `createDefaultButtonConfig`: the hard-coded button defaults. -/
def createDefaultButtonConfig (id : String) : TLCButtonConfig :=
  { id := id, visible := some true, disabled := some false,
    color := some "primary", type := "contained", size := none, icon := none,
    loading := some false, label := "Press me", attr := some [] }

/-- `createButtonConfig`: `{ ...createDefaultButtonConfig(id),
...overrides, attr: { ...createDefaultButtonConfig(id).attr,
...overrides.attr } }` — a top-level shallow merge with the overrides
winning, except that `attr` is itself spread-merged (spreading an absent
record contributes nothing).  A total function: no failure path. -/
def createButtonConfig (id : String) (overrides : TLCButtonConfigPartial) : TLCButtonConfig :=
  { id := overrides.id.getD (createDefaultButtonConfig id).id,
    visible := overrides.visible.orElse fun _ => (createDefaultButtonConfig id).visible,
    disabled := overrides.disabled.orElse fun _ => (createDefaultButtonConfig id).disabled,
    color := overrides.color.orElse fun _ => (createDefaultButtonConfig id).color,
    type := overrides.type.getD (createDefaultButtonConfig id).type,
    size := overrides.size.orElse fun _ => (createDefaultButtonConfig id).size,
    icon := overrides.icon.orElse fun _ => (createDefaultButtonConfig id).icon,
    loading := overrides.loading.orElse fun _ => (createDefaultButtonConfig id).loading,
    label := overrides.label.getD (createDefaultButtonConfig id).label,
    attr := some (spreadAttr ((createDefaultButtonConfig id).attr.getD [])
                             (overrides.attr.getD [])) }

/-- A sample configuration carrying `init` and `destroy` hooks, used by
the concrete witnesses. -/
def cfgA : Config :=
  { id := "w1", disabled := none, visible := some true, ngIf := none,
    hasInit := true, hasDestroy := true,
    stl := some ⟨some (1 / 2), some "flex", [("margin", "4")]⟩,
    disabledOpacity := none, disabledTextColor := none,
    text := "A", hasSetState := false }

/-- A second sample configuration with different `text` and `stl`, used by
the concrete witnesses. -/
def cfgB : Config :=
  { id := "w1", disabled := none, visible := some true, ngIf := none,
    hasInit := true, hasDestroy := true,
    stl := some ⟨none, none, [("padding", "2")]⟩,
    disabledOpacity := none, disabledTextColor := none,
    text := "B", hasSetState := true }

/-- A hook that always throws, used by the concrete witnesses. -/
def throwingHook : HookE := fun _ _ => Except.error ()

/-- A store in which every reference holds `cfgA`, used by the concrete
witnesses. -/
def storeA : Store := fun _ => cfgA

/-! ## Theorems -/

theorem isSomeFalse_eq_true (v : Option Bool) : isSomeFalse v = true ↔ v = some false := by
  cases v with
  | none => simp [isSomeFalse]
  | some b => cases b <;> simp [isSomeFalse]

theorem isSomeFalse_eq_false (v : Option Bool) : isSomeFalse v = false ↔ v ≠ some false := by
  rw [← Bool.not_eq_true, not_iff_not]
  exact isSomeFalse_eq_true v

/-- **C5.** `shouldHideComponent` returns true exactly when
`visible === false`, or `ngIf === false`, or `ngIf` is a predicate whose
call returns false; it is a pure read of the current configuration. -/
theorem shouldHideComponent_iff (cfg : Config) :
    shouldHideComponent cfg = true ↔
      cfg.visible = some false ∨ cfg.ngIf = some (NgIf.bool false) ∨
        ∃ f, cfg.ngIf = some (NgIf.pred f) ∧ f () = false := by
  unfold shouldHideComponent
  by_cases hv : isSomeFalse cfg.visible
  · have hv2 : cfg.visible = some false := (isSomeFalse_eq_true cfg.visible).mp hv
    simp [hv, hv2, isSomeFalse]
  · have hv' : cfg.visible ≠ some false :=
      (isSomeFalse_eq_false cfg.visible).mp (by simpa using hv)
    cases hng : cfg.ngIf with
    | none => simp [hv, hv', hng]
    | some n =>
        cases n with
        | bool b => cases b <;> simp [hv, hv', hng]
        | pred f =>
            cases hf : f () <;> simp [hv, hv', hng, hf]

/-- **C5 witness.** Concrete evaluation: a configuration whose `ngIf`
predicate returns false is hidden. -/
theorem shouldHideComponent_iff_witness :
    shouldHideComponent
        { id := "a", disabled := none, visible := some true,
          ngIf := some (NgIf.pred fun _ => false), hasInit := false,
          hasDestroy := false, stl := none, disabledOpacity := none,
          disabledTextColor := none, text := "", hasSetState := false } = true :=
  (shouldHideComponent_iff _).mpr (Or.inr (Or.inr ⟨fun _ => false, rfl, rfl⟩))

theorem dynDisabledPass_opacity_of_disabled (cfg : Config) (st : DynStyle)
    (h : boolTruthy cfg.disabled = true) :
    (dynDisabledPass cfg st).opacity = some (cfg.disabledOpacity.getD (3 / 5)) := by
  unfold dynDisabledPass
  simp only [h, if_true]
  split <;> rfl

theorem dynVisiblePass_opacity (cfg : Config) (st : DynStyle) :
    (dynVisiblePass cfg st).opacity = st.opacity := by
  unfold dynVisiblePass
  split <;> rfl

theorem dynVisiblePass_display_of_false (cfg : Config) (st : DynStyle)
    (h : isSomeFalse cfg.visible = true) :
    (dynVisiblePass cfg st).display = some "none" := by
  unfold dynVisiblePass
  simp [h]

theorem dynStlPass_opacity_of_disabled (cfg : Config) (st : DynStyle)
    (h : boolTruthy cfg.disabled = true) :
    (dynStlPass cfg st).opacity = st.opacity := by
  unfold dynStlPass
  cases cfg.stl with
  | none => rfl
  | some s =>
      simp only [h, Bool.not_true, Bool.and_false, Bool.false_eq_true, if_false]
      split <;> rfl

theorem dynStlPass_display_of_visibleFalse (cfg : Config) (st : DynStyle)
    (h : isSomeFalse cfg.visible = true) :
    (dynStlPass cfg st).display = st.display := by
  unfold dynStlPass
  cases cfg.stl with
  | none => rfl
  | some s =>
      simp only [h, Bool.not_true, Bool.and_false, Bool.false_eq_true, if_false]
      split <;> rfl

theorem dynStlPass_opacity_applied (cfg : Config) (st : DynStyle) (s : Style) (q : Rat)
    (hd : boolTruthy cfg.disabled = false) (hstl : cfg.stl = some s)
    (hop : s.opacity = some q) :
    (dynStlPass cfg st).opacity = some q := by
  unfold dynStlPass
  rw [hstl]
  simp only [hop, Option.isSome_some, hd, Bool.not_false, Bool.and_true, Bool.and_self, if_true]
  split <;> rfl

theorem dynStlPass_display_applied (cfg : Config) (st : DynStyle) (s : Style) (d : String)
    (hv : isSomeFalse cfg.visible = false) (hstl : cfg.stl = some s)
    (hdisp : s.display = some d) :
    (dynStlPass cfg st).display = some d := by
  unfold dynStlPass
  rw [hstl]
  simp [hv, hdisp]

/-- **C4.** Dynamic style precedence: when `disabled` is truthy the
computed opacity is `disabledOpacity` (defaulting to 0.6) even if the
`stl` override specifies one; when `visible === false` the computed
display is `"none"` even if the override specifies one; the override's
opacity applies exactly when present and not disabled, and its display
applies exactly when present and `visible` is not `false`. -/
theorem dynamicStyle_state_precedence (cfg : Config) :
    (boolTruthy cfg.disabled = true →
        (computeDynamicStyle cfg).opacity = some (cfg.disabledOpacity.getD (3 / 5)))
  ∧ (cfg.visible = some false → (computeDynamicStyle cfg).display = some "none")
  ∧ (∀ s q, boolTruthy cfg.disabled = false → cfg.stl = some s → s.opacity = some q →
        (computeDynamicStyle cfg).opacity = some q)
  ∧ (∀ s d, cfg.visible ≠ some false → cfg.stl = some s → s.display = some d →
        (computeDynamicStyle cfg).display = some d) := by
  refine ⟨?_, ?_, ?_, ?_⟩
  · intro hd
    unfold computeDynamicStyle
    rw [dynStlPass_opacity_of_disabled cfg _ hd, dynVisiblePass_opacity,
      dynDisabledPass_opacity_of_disabled cfg _ hd]
  · intro hv
    have hv' : isSomeFalse cfg.visible = true := (isSomeFalse_eq_true cfg.visible).mpr hv
    unfold computeDynamicStyle
    rw [dynStlPass_display_of_visibleFalse cfg _ hv',
      dynVisiblePass_display_of_false cfg _ hv']
  · intro s q hd hstl hop
    exact dynStlPass_opacity_applied cfg _ s q hd hstl hop
  · intro s d hv hstl hdisp
    have hv' : isSomeFalse cfg.visible = false := (isSomeFalse_eq_false cfg.visible).mpr hv
    exact dynStlPass_display_applied cfg _ s d hv' hstl hdisp

/-- **C4 witness.** Concrete evaluation: `disabled=true` with an `stl`
override `opacity: 0.9` yields the disabled opacity 0.6, and
`visible=false` with override `display: "flex"` yields `"none"`. -/
theorem dynamicStyle_state_precedence_witness :
    (computeDynamicStyle
        { id := "b", disabled := some true, visible := some false,
          ngIf := none, hasInit := false, hasDestroy := false,
          stl := some ⟨some (9 / 10), some "flex", []⟩,
          disabledOpacity := none, disabledTextColor := none,
          text := "", hasSetState := false }).opacity = some (3 / 5)
  ∧ (computeDynamicStyle
        { id := "b", disabled := some true, visible := some false,
          ngIf := none, hasInit := false, hasDestroy := false,
          stl := some ⟨some (9 / 10), some "flex", []⟩,
          disabledOpacity := none, disabledTextColor := none,
          text := "", hasSetState := false }).display = some "none" :=
  ⟨(dynamicStyle_state_precedence _).1 rfl,
   (dynamicStyle_state_precedence _).2.1 rfl⟩

theorem updateConfig_initialized (h : Hook) (s : WrapperState) (c : Config) :
    (updateConfig h s c).1.initialized = s.initialized := by
  unfold updateConfig
  cases s.previousConfig <;> rfl

theorem updateConfig_cache (h : Hook) (s : WrapperState) (c : Config) :
    (updateConfig h s c).1.staticStyleCache = s.staticStyleCache := by
  unfold updateConfig
  cases s.previousConfig <;> rfl

theorem updateConfig_config (h : Hook) (s : WrapperState) (c : Config) :
    (updateConfig h s c).1.config = c := by
  unfold updateConfig
  cases s.previousConfig <;> rfl

theorem updateConfig_prev (h : Hook) (s : WrapperState) (c : Config) :
    (updateConfig h s c).1.previousConfig = some c := by
  unfold updateConfig
  cases s.previousConfig <;> rfl

theorem updateConfig_trace (h : Hook) (s : WrapperState) (c : Config) :
    (updateConfig h s c).2 = match s.previousConfig with
      | some p => h p c
      | none => [] := by
  unfold updateConfig
  cases s.previousConfig <;> rfl

theorem updateConfig_of_prev (h : Hook) (s : WrapperState) (p c : Config)
    (hp : s.previousConfig = some p) :
    updateConfig h s c = ({ s with config := c, previousConfig := some c }, h p c) := by
  unfold updateConfig
  rw [hp]

theorem cleanup_previousConfig (s : WrapperState) :
    (cleanup s).1.previousConfig = s.previousConfig := by
  unfold cleanup
  split <;> rfl

theorem cleanup_config (s : WrapperState) :
    (cleanup s).1.config = s.config := by
  unfold cleanup
  split <;> rfl

theorem construct_initialized (c0 : Config) :
    (construct c0).1.initialized = c0.hasInit := by
  unfold construct useLifecycle
  cases h : c0.hasInit <;> simp [h]

theorem construct_previousConfig (c0 : Config) :
    (construct c0).1.previousConfig = some c0 := by
  unfold construct useLifecycle
  cases h : c0.hasInit <;> simp [h]

theorem construct_trace_init (c0 : Config) :
    (construct c0).2.countP Ev.isInit = if c0.hasInit then 1 else 0 := by
  unfold construct useLifecycle
  cases h : c0.hasInit <;> simp [h, Ev.isInit]

theorem construct_trace_destroy (c0 : Config) :
    (construct c0).2.countP Ev.isDestroy = 0 := by
  unfold construct useLifecycle
  cases h : c0.hasInit <;> simp [h, Ev.isDestroy]

theorem runOps_no_init (h : Hook) (hh : ∀ p c, (h p c).countP Ev.isInit = 0)
    (ops : List Op) : ∀ s : WrapperState,
    ((runOps h s ops).2).countP Ev.isInit = 0 := by
  induction ops with
  | nil => intro s; rfl
  | cons op t ih =>
      intro s
      cases op with
      | update c =>
          simp only [runOps, List.countP_append]
          have h1 : ((updateConfig h s c).2).countP Ev.isInit = 0 := by
            rw [updateConfig_trace]
            cases s.previousConfig with
            | none => rfl
            | some p => exact hh p c
          rw [h1, ih]
      | doCleanup =>
          simp only [runOps, List.countP_append]
          have h1 : ((cleanup s).2).countP Ev.isInit = 0 := by
            unfold cleanup
            split <;> rfl
          rw [h1, ih]

theorem cleanup_trace_destroy (s : WrapperState) :
    ((cleanup s).2).countP Ev.isDestroy
      = if s.config.hasDestroy && s.initialized then 1 else 0 := by
  by_cases hc : s.config.hasDestroy && s.initialized <;>
    simp [cleanup, hc, Ev.isDestroy]

theorem runOps_destroy_le (h : Hook) (hh : ∀ p c, (h p c).countP Ev.isDestroy = 0)
    (ops : List Op) : ∀ s : WrapperState,
    ((runOps h s ops).2).countP Ev.isDestroy ≤ (if s.initialized then 1 else 0) := by
  induction ops with
  | nil =>
      intro s
      simp [runOps]
  | cons op t ih =>
      intro s
      cases op with
      | update c =>
          simp only [runOps, List.countP_append]
          have h1 : ((updateConfig h s c).2).countP Ev.isDestroy = 0 := by
            rw [updateConfig_trace]
            cases s.previousConfig with
            | none => rfl
            | some p => exact hh p c
          rw [h1, Nat.zero_add]
          have h2 := ih (updateConfig h s c).1
          rwa [updateConfig_initialized] at h2
      | doCleanup =>
          simp only [runOps, List.countP_append]
          by_cases hc : s.config.hasDestroy && s.initialized
          · have hs : s.initialized = true := by
              simp only [Bool.and_eq_true] at hc
              exact hc.2
            have hcl : (cleanup s).1.initialized = false := by
              simp [cleanup, hc]
            have h2 := ih (cleanup s).1
            rw [hcl] at h2
            simp only [Bool.false_eq_true, if_false, Nat.le_zero] at h2
            rw [cleanup_trace_destroy, if_pos hc, h2, hs]
            simp
          · have hcl : (cleanup s).1 = s := by
              simp [cleanup, hc]
            rw [cleanup_trace_destroy, if_neg hc, Nat.zero_add, hcl]
            exact ih s

/-- **C2.** One construction followed by N `updateConfig` calls fires the
`init` hook exactly once when the initial configuration carries one and
never otherwise: `updateConfig` never re-invokes `init` (the hypothesis
says only that the specialization hook does not itself call `init`, true
of the base no-op hook and of the label hook). -/
theorem init_fires_exactly_once (h : Hook)
    (hh : ∀ p c, (h p c).countP Ev.isInit = 0)
    (c0 : Config) (cs : List Config) :
    (((construct c0).2
        ++ (runOps h (construct c0).1 (cs.map Op.update)).2).countP Ev.isInit)
      = if c0.hasInit then 1 else 0 := by
  rw [List.countP_append, construct_trace_init, runOps_no_init h hh]
  exact Nat.add_zero _

/-- **C2 witness.** A label wrapper constructed from `cfgA` (which carries
an `init` hook) and updated twice fires `init` exactly once. -/
theorem init_fires_exactly_once_witness :
    (((construct cfgA).2
        ++ (runOps (labelOnConfigChange true) (construct cfgA).1
              ([cfgB, cfgB].map Op.update)).2).countP Ev.isInit) = 1 :=
  (init_fires_exactly_once (labelOnConfigChange true)
    (fun p c => by
      unfold labelOnConfigChange
      split
      · rw [List.countP_append]
        split <;> split <;> rfl
      · rfl)
    cfgA [cfgB, cfgB]).trans rfl

theorem construct_config (c0 : Config) : (construct c0).1.config = c0 := by
  unfold construct useLifecycle
  cases h : c0.hasInit <;> simp [h]

theorem runOps_updates_no_destroy (h : Hook)
    (hh : ∀ p c, (h p c).countP Ev.isDestroy = 0)
    (cs : List Config) : ∀ s : WrapperState,
    ((runOps h s (cs.map Op.update)).2).countP Ev.isDestroy = 0 := by
  induction cs with
  | nil => intro s; rfl
  | cons c t ih =>
      intro s
      simp only [List.map, runOps, List.countP_append]
      have h1 : ((updateConfig h s c).2).countP Ev.isDestroy = 0 := by
        rw [updateConfig_trace]
        cases s.previousConfig with
        | none => rfl
        | some p => exact hh p c
      rw [h1, ih]

theorem runOps_updates_state (h : Hook) (cs : List Config) : ∀ s : WrapperState,
    ((runOps h s (cs.map Op.update)).1.config = lastConfig s.config cs)
  ∧ ((runOps h s (cs.map Op.update)).1.initialized = s.initialized) := by
  induction cs with
  | nil => intro s; exact ⟨rfl, rfl⟩
  | cons c t ih =>
      intro s
      simp only [List.map, runOps]
      constructor
      · rw [(ih ((updateConfig h s c).1)).1, updateConfig_config]
        rfl
      · rw [(ih ((updateConfig h s c).1)).2, updateConfig_initialized]

theorem runOps_append (h : Hook) (l1 l2 : List Op) : ∀ s : WrapperState,
    runOps h s (l1 ++ l2)
      = ((runOps h (runOps h s l1).1 l2).1,
         (runOps h s l1).2 ++ (runOps h (runOps h s l1).1 l2).2) := by
  induction l1 with
  | nil => intro s; simp [runOps]
  | cons op t ih =>
      intro s
      cases op with
      | update c =>
          simp only [List.cons_append, runOps, List.append_eq]
          rw [ih ((updateConfig h s c).1)]
          simp [List.append_assoc]
      | doCleanup =>
          simp only [List.cons_append, runOps, List.append_eq]
          rw [ih ((cleanup s).1)]
          simp [List.append_assoc]

/-- **C3.** Across one construction and an arbitrary interleaving of
`updateConfig` and `cleanup` calls, the `destroy` hook fires at most once;
it never fires during construction; if it fired at all then `init` fired
(exactly once) — the guard is the same `initialized` flag; and it does
fire, exactly once in the whole run, whenever a `cleanup` is reached after
N updates with `init` having fired and the then-current configuration
carrying a `destroy` hook. -/
theorem destroy_fires_at_most_once_guarded (h : Hook) (hh : HookNoLifecycleEvents h)
    (c0 : Config) (ops : List Op) :
    (((construct c0).2 ++ (runOps h (construct c0).1 ops).2).countP Ev.isDestroy ≤ 1)
  ∧ ((construct c0).2.countP Ev.isDestroy = 0)
  ∧ (1 ≤ ((construct c0).2 ++ (runOps h (construct c0).1 ops).2).countP Ev.isDestroy →
      ((construct c0).2 ++ (runOps h (construct c0).1 ops).2).countP Ev.isInit = 1)
  ∧ (∀ cs ds, ops = cs.map Op.update ++ Op.doCleanup :: ds →
      c0.hasInit = true → (lastConfig c0 cs).hasDestroy = true →
      ((construct c0).2 ++ (runOps h (construct c0).1 ops).2).countP Ev.isDestroy = 1) := by
  have hdes : ∀ p c, (h p c).countP Ev.isDestroy = 0 := fun p c => (hh p c).2
  have hini : ∀ p c, (h p c).countP Ev.isInit = 0 := fun p c => (hh p c).1
  have hbound := runOps_destroy_le h hdes ops (construct c0).1
  rw [construct_initialized] at hbound
  refine ⟨?_, construct_trace_destroy c0, ?_, ?_⟩
  · rw [List.countP_append, construct_trace_destroy, Nat.zero_add]
    exact hbound.trans (by cases c0.hasInit <;> simp)
  · intro hge
    rw [List.countP_append, construct_trace_destroy, Nat.zero_add] at hge
    have hInitTrue : c0.hasInit = true := by
      cases hb : c0.hasInit
      · rw [hb] at hbound
        simp only [Bool.false_eq_true, if_false, Nat.le_zero] at hbound
        omega
      · rfl
    rw [List.countP_append, construct_trace_init, runOps_no_init h hini, hInitTrue]
    simp
  · intro cs ds hops hinit hdestroy
    subst hops
    rw [List.countP_append, construct_trace_destroy, Nat.zero_add]
    rw [runOps_append, List.countP_append,
      runOps_updates_no_destroy h hdes cs (construct c0).1, Nat.zero_add]
    have hs1 := runOps_updates_state h cs (construct c0).1
    have hs1c : (runOps h (construct c0).1 (cs.map Op.update)).1.config
        = lastConfig c0 cs := by
      rw [hs1.1, construct_config]
    have hs1i : (runOps h (construct c0).1 (cs.map Op.update)).1.initialized = true := by
      rw [hs1.2, construct_initialized, hinit]
    have hcond : ((runOps h (construct c0).1 (cs.map Op.update)).1.config.hasDestroy
        && (runOps h (construct c0).1 (cs.map Op.update)).1.initialized) = true := by
      rw [hs1c, hs1i, hdestroy]
      rfl
    have hcl : (cleanup (runOps h (construct c0).1 (cs.map Op.update)).1).1.initialized
        = false := by
      simp [cleanup, hcond]
    have hrest := runOps_destroy_le h hdes ds
      (cleanup (runOps h (construct c0).1 (cs.map Op.update)).1).1
    rw [hcl] at hrest
    simp only [Bool.false_eq_true, if_false, Nat.le_zero] at hrest
    simp only [runOps, List.countP_append]
    rw [cleanup_trace_destroy, hrest, hs1c, hs1i, hdestroy]
    rfl

/-- **C3 witness.** A wrapper constructed from `cfgA` (carrying `init` and
`destroy` hooks) and cleaned up twice: `destroy` fires exactly once —
positively, at the first cleanup — not at construction, and only with
`init` having fired. -/
theorem destroy_fires_at_most_once_guarded_witness :
    (((construct cfgA).2
        ++ (runOps baseOnConfigChange (construct cfgA).1
              [Op.doCleanup, Op.doCleanup]).2).countP Ev.isDestroy ≤ 1)
  ∧ ((construct cfgA).2.countP Ev.isDestroy = 0)
  ∧ (1 ≤ ((construct cfgA).2
        ++ (runOps baseOnConfigChange (construct cfgA).1
              [Op.doCleanup, Op.doCleanup]).2).countP Ev.isDestroy →
      ((construct cfgA).2
        ++ (runOps baseOnConfigChange (construct cfgA).1
              [Op.doCleanup, Op.doCleanup]).2).countP Ev.isInit = 1)
  ∧ (((construct cfgA).2
        ++ (runOps baseOnConfigChange (construct cfgA).1
              [Op.doCleanup, Op.doCleanup]).2).countP Ev.isDestroy = 1) :=
  have h := destroy_fires_at_most_once_guarded baseOnConfigChange
    (fun _ _ => ⟨rfl, rfl⟩) cfgA [Op.doCleanup, Op.doCleanup]
  ⟨h.1, h.2.1, h.2.2.1, h.2.2.2 [] [Op.doCleanup] rfl rfl rfl⟩

/-- **C6.** A label wrapper's `updateConfig`: when the new text differs
from the previous snapshot's text, exactly the `textChanged` emission
(with new and previous text, when a handler is installed) followed by the
`setState` call (when present) happen; when the text is unchanged, no
event and no `setState` call happen, whatever other fields changed. -/
theorem label_updateConfig_text_events (b : Bool) (s : WrapperState) (p c : Config)
    (hprev : s.previousConfig = some p) :
    (p.text ≠ c.text →
        (updateConfig (labelOnConfigChange b) s c).2
          = (if b then [Ev.textChanged c.text p.text] else [])
              ++ (if c.hasSetState then [Ev.setStateCall c] else []))
  ∧ (p.text = c.text → (updateConfig (labelOnConfigChange b) s c).2 = []) := by
  rw [updateConfig_of_prev _ s p c hprev]
  constructor <;> intro ht <;> simp [labelOnConfigChange, ht]

/-- **C6 witness.** Updating a label wrapper built from `cfgA` (text "A")
with `cfgB` (text "B", carrying a `setState` callback): the trace is
exactly one `textChanged` event with the right payload followed by the
`setState` call. -/
theorem label_updateConfig_text_events_witness :
    (cfgA.text ≠ cfgB.text →
        (updateConfig (labelOnConfigChange true) (construct cfgA).1 cfgB).2
          = (if true then [Ev.textChanged cfgB.text cfgA.text] else [])
              ++ (if cfgB.hasSetState then [Ev.setStateCall cfgB] else []))
  ∧ (cfgA.text = cfgB.text →
        (updateConfig (labelOnConfigChange true) (construct cfgA).1 cfgB).2 = []) :=
  label_updateConfig_text_events true (construct cfgA).1 cfgA cfgB
    (construct_previousConfig cfgA)

theorem staticStyle_of_cached (t : WrapperState) (v : List (String × String))
    (hv : t.staticStyleCache = some v) : staticStyle t = (t, v) := by
  unfold staticStyle
  rw [hv]

/-- **C8.** The first `staticStyle` access computes the `stl` record minus
its `opacity`/`display` sub-fields and caches it; after an intervening
`updateConfig` (which really replaces the configuration) a second access
still returns the value computed from the original configuration — there
is no invalidation path. -/
theorem staticStyle_fixed_at_first_read (h : Hook) (s : WrapperState) (c : Config)
    (hc : s.staticStyleCache = none) :
    ((staticStyle s).2 = computeStaticStyle s.config)
  ∧ ((staticStyle ((updateConfig h (staticStyle s).1 c).1)).2
      = computeStaticStyle s.config)
  ∧ (((updateConfig h (staticStyle s).1 c).1).config = c) := by
  have h1 : staticStyle s
      = ({ s with staticStyleCache := some (computeStaticStyle s.config) },
         computeStaticStyle s.config) := by
    unfold staticStyle
    rw [hc]
  have h2 : ((updateConfig h (staticStyle s).1 c).1).staticStyleCache
      = some (computeStaticStyle s.config) := by
    rw [updateConfig_cache, h1]
  refine ⟨by rw [h1], ?_, updateConfig_config h _ c⟩
  rw [staticStyle_of_cached _ _ h2]

/-- **C8 witness.** A wrapper built from `cfgA` (whose `stl` carries a
`margin` entry besides `opacity`/`display`), then updated to `cfgB` (whose
`stl` carries `padding` instead): both accesses return `cfgA`'s static
style even though the configuration now is `cfgB`. -/
theorem staticStyle_fixed_at_first_read_witness :
    ((staticStyle (construct cfgA).1).2 = computeStaticStyle (construct cfgA).1.config)
  ∧ ((staticStyle ((updateConfig baseOnConfigChange
        (staticStyle (construct cfgA).1).1 cfgB).1)).2
      = computeStaticStyle (construct cfgA).1.config)
  ∧ (((updateConfig baseOnConfigChange
        (staticStyle (construct cfgA).1).1 cfgB).1).config = cfgB) :=
  staticStyle_fixed_at_first_read baseOnConfigChange (construct cfgA).1 cfgB rfl

/-- **C9.** A throwing hook propagates to the caller and leaves the
`initialized` flag and the `_previousConfig` snapshot untouched: a throwing
`onConfigChange` inside `updateConfig` keeps the old snapshot and flag
(only `_config`, assigned before the hook, is the new value); a throwing
`destroy` inside `cleanup` leaves the state fully unchanged; a throwing
`init` inside the constructor propagates out of `new`, which then produces
no instance at all. -/
theorem hook_exceptions_preserve_flags (hook : HookE) (s : WrapperState) (p c : Config)
    (hprev : s.previousConfig = some p) (hthrow : hook p c = Except.error ()) :
    ((updateConfigE hook s c).2 = Except.error ())
  ∧ ((updateConfigE hook s c).1.previousConfig = s.previousConfig)
  ∧ ((updateConfigE hook s c).1.initialized = s.initialized)
  ∧ ((updateConfigE hook s c).1.config = c)
  ∧ (∀ t : WrapperState, t.config.hasDestroy = true → t.initialized = true →
        cleanupE true t = (t, Except.error ()))
  ∧ (∀ input : Config, input.hasInit = true → constructE true input = Except.error ()) := by
  have hu : updateConfigE hook s c = ({ s with config := c }, Except.error ()) := by
    unfold updateConfigE
    rw [hprev]
    simp [hthrow]
  refine ⟨by rw [hu], by rw [hu], by rw [hu], by rw [hu], ?_, ?_⟩
  · intro t h1 h2
    unfold cleanupE
    rw [h1, h2]
    rfl
  · intro input h1
    unfold constructE
    rw [h1]
    rfl

/-- **C9 witness.** A wrapper built from `cfgA`, updated with `cfgB` under
an always-throwing hook: the error propagates, the snapshot and flag are
unchanged, and throwing `destroy`/`init` behave as stated. -/
theorem hook_exceptions_preserve_flags_witness :
    ((updateConfigE throwingHook (construct cfgA).1 cfgB).2 = Except.error ())
  ∧ ((updateConfigE throwingHook (construct cfgA).1 cfgB).1.previousConfig
      = (construct cfgA).1.previousConfig)
  ∧ ((updateConfigE throwingHook (construct cfgA).1 cfgB).1.initialized
      = (construct cfgA).1.initialized)
  ∧ ((updateConfigE throwingHook (construct cfgA).1 cfgB).1.config = cfgB)
  ∧ (∀ t : WrapperState, t.config.hasDestroy = true → t.initialized = true →
        cleanupE true t = (t, Except.error ()))
  ∧ (∀ input : Config, input.hasInit = true → constructE true input = Except.error ()) :=
  hook_exceptions_preserve_flags throwingHook (construct cfgA).1 cfgA cfgB
    (construct_previousConfig cfgA) rfl

/-- **C10.** `updateConfig` after `cleanup` is neither rejected nor a
no-op: it stores the new configuration, invokes the hook with the
still-present previous snapshot, and overwrites the snapshot — the same
events and configuration fields as the identical call issued before
`cleanup` (the wrapper keeps no terminal-state guard). -/
theorem updateConfig_after_cleanup_unguarded (h : Hook) (s : WrapperState) (c : Config) :
    ((updateConfig h (cleanup s).1 c).1.config = c)
  ∧ ((updateConfig h (cleanup s).1 c).1.previousConfig = some c)
  ∧ ((updateConfig h (cleanup s).1 c).2 = (updateConfig h s c).2)
  ∧ (∀ p, s.previousConfig = some p → (updateConfig h (cleanup s).1 c).2 = h p c) := by
  refine ⟨updateConfig_config h _ c, updateConfig_prev h _ c, ?_, ?_⟩
  · rw [updateConfig_trace, updateConfig_trace, cleanup_previousConfig]
  · intro p hp
    rw [updateConfig_trace, cleanup_previousConfig, hp]

/-- **C10 witness.** A wrapper built from `cfgA`, cleaned up, then updated
with `cfgB`: the update goes through exactly as before cleanup. -/
theorem updateConfig_after_cleanup_unguarded_witness :
    ((updateConfig baseOnConfigChange (cleanup (construct cfgA).1).1 cfgB).1.config = cfgB)
  ∧ ((updateConfig baseOnConfigChange (cleanup (construct cfgA).1).1 cfgB).1.previousConfig
      = some cfgB)
  ∧ ((updateConfig baseOnConfigChange (cleanup (construct cfgA).1).1 cfgB).2
      = (updateConfig baseOnConfigChange (construct cfgA).1 cfgB).2)
  ∧ (∀ p, (construct cfgA).1.previousConfig = some p →
      (updateConfig baseOnConfigChange (cleanup (construct cfgA).1).1 cfgB).2
        = baseOnConfigChange p cfgB) :=
  updateConfig_after_cleanup_unguarded baseOnConfigChange (construct cfgA).1 cfgB

/-- **C1.** At the reference level, `updateConfig` hands `onConfigChange`
the pre-overwrite snapshot contents together with the new configuration's
contents; afterwards the stored snapshot equals the new configuration by
value, lives in an object distinct from the caller's record, and no later
mutation of the caller's record can change it. -/
theorem updateConfig_snapshot_value_copy (σ : Store) (w : WrapperRefs) (r : Ref)
    (hr : r < w.nextRef) :
    ((updateConfigRef σ w r).2.2 = (σ w.prevRef, σ r))
  ∧ ((updateConfigRef σ w r).1 (updateConfigRef σ w r).2.1.prevRef = σ r)
  ∧ ((updateConfigRef σ w r).2.1.prevRef ≠ r)
  ∧ (∀ c', Store.write (updateConfigRef σ w r).1 r c'
        (updateConfigRef σ w r).2.1.prevRef = σ r) := by
  have hne : w.nextRef ≠ r := Nat.ne_of_gt hr
  refine ⟨rfl, ?_, hne, ?_⟩
  · show Store.write σ w.nextRef (σ r) w.nextRef = σ r
    simp [Store.write]
  · intro c'
    show Store.write (Store.write σ w.nextRef (σ r)) r c' w.nextRef = σ r
    simp [Store.write, hne]

/-- **C1 witness.** In a store whose references all hold `cfgA`, with a
wrapper whose next fresh reference is 2 and whose caller record is
reference 0: the snapshot copy is unaffected by subsequent writes to
reference 0. -/
theorem updateConfig_snapshot_value_copy_witness :
    ((updateConfigRef storeA ⟨0, 1, 2⟩ 0).2.2 = (storeA 1, storeA 0))
  ∧ ((updateConfigRef storeA ⟨0, 1, 2⟩ 0).1
        (updateConfigRef storeA ⟨0, 1, 2⟩ 0).2.1.prevRef = storeA 0)
  ∧ ((updateConfigRef storeA ⟨0, 1, 2⟩ 0).2.1.prevRef ≠ 0)
  ∧ (∀ c', Store.write (updateConfigRef storeA ⟨0, 1, 2⟩ 0).1 0 c'
        (updateConfigRef storeA ⟨0, 1, 2⟩ 0).2.1.prevRef = storeA 0) :=
  updateConfig_snapshot_value_copy storeA ⟨0, 1, 2⟩ 0 (by decide)

theorem lookup_append {β : Type} (l1 l2 : List (String × β)) (k : String) :
    List.lookup k (l1 ++ l2)
      = (List.lookup k l1).orElse fun _ => List.lookup k l2 := by
  induction l1 with
  | nil => simp [List.lookup, Option.orElse]
  | cons a t ih =>
      obtain ⟨a1, a2⟩ := a
      by_cases hk : k = a1
      · subst hk
        simp [List.lookup, Option.orElse]
      · have hbeq : (k == a1) = false := by simp [hk]
        simp only [List.cons_append, List.lookup, List.append_eq, hbeq]
        exact ih

theorem lookup_filterKeys (base ov : Attr) (k : String) :
    (base.filter fun kv => (ov.lookup kv.1).isNone).lookup k
      = if (ov.lookup k).isNone then base.lookup k else none := by
  induction base with
  | nil => simp [List.lookup]
  | cons a t ih =>
      obtain ⟨a1, a2⟩ := a
      rw [List.filter_cons]
      by_cases hk : k = a1
      · subst hk
        cases hov : ov.lookup k with
        | none =>
            simp [List.lookup]
        | some w =>
            simp only [Option.isNone_some, Bool.false_eq_true, if_false]
            rw [ih, hov]
            simp
      · have hbeq : (k == a1) = false := by simp [hk]
        by_cases ha : (ov.lookup a1).isNone
        · rw [if_pos (show ((ov.lookup (a1, a2).1).isNone = true) by simpa using ha)]
          simp only [List.lookup, hbeq]
          exact ih
        · rw [if_neg (show ¬((ov.lookup (a1, a2).1).isNone = true) by simpa using ha)]
          rw [ih]
          simp only [List.lookup, hbeq]

theorem spreadAttr_lookup (base ov : Attr) (k : String) :
    (spreadAttr base ov).lookup k
      = (ov.lookup k).orElse fun _ => base.lookup k := by
  unfold spreadAttr
  rw [lookup_append, lookup_filterKeys]
  cases hov : ov.lookup k with
  | some w => simp [Option.orElse]
  | none =>
      simp only [Option.isNone_none, if_pos]
      cases base.lookup k <;> simp [Option.orElse]

/-- **C7.** The button factory returns the hard-coded defaults
(visible=true, disabled=false, color="primary", type="contained",
loading=false, label="Press me") shallow-merged with the overrides, the
overrides winning at the top level, and the `attr` record merged key-wise
as defaults.attr ⊕ overrides.attr so that neither side's keys are erased;
it is a total (pure, never-failing) function. -/
theorem createButtonConfig_merges (id : String) (ov : TLCButtonConfigPartial) :
    ((createButtonConfig id ov).id = ov.id.getD id)
  ∧ ((createButtonConfig id ov).visible = ov.visible.orElse fun _ => some true)
  ∧ ((createButtonConfig id ov).disabled = ov.disabled.orElse fun _ => some false)
  ∧ ((createButtonConfig id ov).color = ov.color.orElse fun _ => some "primary")
  ∧ ((createButtonConfig id ov).type = ov.type.getD "contained")
  ∧ ((createButtonConfig id ov).loading = ov.loading.orElse fun _ => some false)
  ∧ ((createButtonConfig id ov).label = ov.label.getD "Press me")
  ∧ ((createButtonConfig id ov).size = ov.size)
  ∧ (∀ k, ((createButtonConfig id ov).attr.getD []).lookup k
        = ((ov.attr.getD []).lookup k).orElse
            fun _ => ((createDefaultButtonConfig id).attr.getD []).lookup k) := by
  refine ⟨rfl, rfl, rfl, rfl, rfl, rfl, rfl, ?_, ?_⟩
  · show ov.size.orElse (fun _ => none) = ov.size
    cases ov.size <;> rfl
  · intro k
    show (spreadAttr ((createDefaultButtonConfig id).attr.getD [])
            (ov.attr.getD [])).lookup k = _
    rw [spreadAttr_lookup]

/-- **C7 witness.** `createButtonConfig "x"` with an override carrying a
label and one `attr` key: the label override wins, untouched fields keep
their defaults, and the `attr` key survives the merge. -/
theorem createButtonConfig_merges_witness :
    ((createButtonConfig "x"
        ⟨none, none, none, none, none, none, none, none, some "Go",
         some [("data-testid", "save-button")]⟩).id = (none : Option String).getD "x")
  ∧ ((createButtonConfig "x"
        ⟨none, none, none, none, none, none, none, none, some "Go",
         some [("data-testid", "save-button")]⟩).visible
      = (none : Option Bool).orElse fun _ => some true)
  ∧ ((createButtonConfig "x"
        ⟨none, none, none, none, none, none, none, none, some "Go",
         some [("data-testid", "save-button")]⟩).disabled
      = (none : Option Bool).orElse fun _ => some false)
  ∧ ((createButtonConfig "x"
        ⟨none, none, none, none, none, none, none, none, some "Go",
         some [("data-testid", "save-button")]⟩).color
      = (none : Option String).orElse fun _ => some "primary")
  ∧ ((createButtonConfig "x"
        ⟨none, none, none, none, none, none, none, none, some "Go",
         some [("data-testid", "save-button")]⟩).type
      = (none : Option String).getD "contained")
  ∧ ((createButtonConfig "x"
        ⟨none, none, none, none, none, none, none, none, some "Go",
         some [("data-testid", "save-button")]⟩).loading
      = (none : Option Bool).orElse fun _ => some false)
  ∧ ((createButtonConfig "x"
        ⟨none, none, none, none, none, none, none, none, some "Go",
         some [("data-testid", "save-button")]⟩).label = (some "Go").getD "Press me")
  ∧ ((createButtonConfig "x"
        ⟨none, none, none, none, none, none, none, none, some "Go",
         some [("data-testid", "save-button")]⟩).size = (none : Option String))
  ∧ (∀ k, ((createButtonConfig "x"
        ⟨none, none, none, none, none, none, none, none, some "Go",
         some [("data-testid", "save-button")]⟩).attr.getD []).lookup k
      = (((some [("data-testid", "save-button")] : Option Attr).getD []).lookup k).orElse
          fun _ => ((createDefaultButtonConfig "x").attr.getD []).lookup k) :=
  createButtonConfig_merges "x"
    ⟨none, none, none, none, none, none, none, none, some "Go",
     some [("data-testid", "save-button")]⟩

end TLC
